import Mathlib

/-
Verification of the remote script execution and artifact retrieval pipeline
(`remote_operate`, src/lib/common.py lines 111-209) against its specification.

The Python function drives one SSH session through
connect -> ensure remote dir -> upload -> execute -> probe -> download -> close,
with a catch-all `except Exception` (lines 203-204) and a `finally` block
(lines 205-209) that closes the SSH client when its transport is active.

Shallow embedding: each collaborator call (paramiko connect / sftp stat /
sftp put / exec_command / sftp get and the local filesystem) is an external
effect whose outcome is supplied by an `Env` oracle; the pipeline becomes a
total function from `Env` to the observable run record `RunResult`
(ordered trace of the operations attempted, the exit taken, whether an
exception escaped to the caller, and the final session state).
`os.makedirs(local_output_dir, exist_ok=True)` (line 145) is assumed to
succeed, as is the fire-and-forget `mkdir -p` command (line 166).
-/

/-- Kinds of exceptions the external collaborators can raise; the kind keeps
a caught exception distinguishable (a timeout prints a different message at
line 204 than an authentication error does). -/
inductive ExcKind where
  | connError
  | fileNotFound
  | transferError
  | timeout
  | other
  deriving DecidableEq

/-- An exception value: its kind and the message that `str(e)` would show. -/
structure Exc where
  kind : ExcKind
  msg : String
  deriving DecidableEq

/-- Outcomes of the external operations performed by one run of
`remote_operate`, in program order:

* `connectErr`: `ssh.connect` (lines 152-158) raises, when `some`;
* `scriptDirMissing`: `sftp.stat(remote_script_dir)` (line 164) raises
  `FileNotFoundError`, so `mkdir -p` is issued (line 166);
* `localScriptMissing`: the local script does not exist, so
  `sftp.put` (line 167) raises `FileNotFoundError`;
* `uploadErr`: `sftp.put` raises for another I/O reason, when `some`;
* `execErr`: executing the script or reading its streams (lines 174-180)
  raises, with kind `.timeout` when the 180 s bound is exceeded;
* `execStderr`: the text `stderr.read()` returns when execution completes;
* `probeErr`: running or reading the existence probe (lines 187-188) raises;
* `probeStdout`: the raw stdout of the probe command, stripped at line 188;
* `downloadErr`: `sftp.get` (line 197) raises, when `some`. -/
structure Env where
  connectErr : Option Exc
  scriptDirMissing : Bool
  localScriptMissing : Bool
  uploadErr : Option Exc
  execErr : Option Exc
  execStderr : String
  probeErr : Option Exc
  probeStdout : String
  downloadErr : Option Exc
  deriving DecidableEq

/-- The pipeline stage at which an exception was raised inside the `try`
block (lines 150-201). -/
inductive Stage where
  | connect
  | upload
  | execute
  | probe
  | download
  deriving DecidableEq

/-- Observable operations of one run, in the order they happen. -/
inductive Event where
  | makedirsLocal
  | connectAttempt
  | remoteMkdir
  | uploadAttempt
  | execAttempt
  | probeAttempt
  | downloadAttempt
  | sshClose
  deriving DecidableEq

/-- How the `try` body of lines 150-201 exits when no exception is raised:
either it falls through normally (recording whether the remote output file
was found and, when downloaded, the local artifact path), or it takes the
early `return` at line 183 because the remote command wrote to stderr. -/
inductive TryExit where
  | normal (outputFound : Bool) (localFile : Option String)
  | earlyReturn (stderr : String)
  deriving DecidableEq

/-- The exit taken by one whole run of `remote_operate`. -/
inductive Outcome where
  | completed (outputFound : Bool)
  | earlyReturnStderr (stderr : String)
  | caught (stage : Stage) (e : Exc)
  deriving DecidableEq

/-- The observable record of one run of `remote_operate`. -/
structure RunResult where
  events : List Event
  outcome : Outcome
  escaped : Option Exc
  localDirCreated : Bool
  localFilePath : Option String
  sshOpenAtReturn : Bool
  closeInvoked : Bool
  deriving DecidableEq

/-- Line 141: `os.path.basename` — the part of the path after the last `/`. -/
def basename (p : String) : String :=
  (p.splitOn "/").getLastD ""

/-- Line 191: `os.path.join(dir, name)` for two components, as in CPython:
an absolute second component wins; otherwise the separator is inserted
unless the first component is empty or already ends in `/`. -/
def joinPath (dir name : String) : String :=
  if name.startsWith "/" then name
  else if dir = "" then name
  else if dir.endsWith "/" then dir ++ name
  else dir ++ "/" ++ name

/-- Line 188's `.strip()`: remove leading and trailing whitespace from the
probe's stdout. -/
def pyStrip (s : String) : String :=
  String.mk (((s.data.dropWhile Char.isWhitespace).reverse.dropWhile Char.isWhitespace).reverse)

/-- Line 143: `"{}{}_{}".format(remote_output_path, server_ip,
remote_output_filename)` — the expected remote output path. -/
def computeRemoteOutputPath (remote_output_dir server_ip remote_output_filename : String) : String :=
  remote_output_dir ++ server_ip ++ "_" ++ remote_output_filename

/-- Lines 163-166: the ensure-remote-directory step. The remote filesystem
is abstracted to whether the staging directory exists; `sftp.stat` succeeds
exactly when it does, and otherwise `mkdir -p` is issued, which creates the
directory and is a no-op on an existing one. Returns the new existence
state and whether the step failed. -/
def ensureRemoteDir (dirExists : Bool) : Bool × Bool :=
  if dirExists then
    (dirExists, false)
  else
    (true, false)

/-- Lines 207-208: `ssh.close()` acting on the transport-active flag;
closing deactivates the transport and is a no-op on an inactive one. -/
def sshClose (_active : Bool) : Bool :=
  false

/-- Result of the `try` body (lines 150-201): the trace of operations it
attempted, whether `ssh.connect` returned (so the transport became active),
and either its exit value or the exception it raised, tagged with the stage
that raised it. -/
structure TryResult where
  events : List Event
  connected : Bool
  exit : Except (Stage × Exc) TryExit

/-- The `try` body, lines 150-201 of src/lib/common.py: connect (152-158),
stat the remote script dir and `mkdir -p` it when missing (163-166), upload
the script (167), execute it with the 180 s timeout and read its streams
(172-180), return early on non-empty stderr (181-183), probe for the output
file (186-188), and download it exactly when the stripped probe output is
the sentinel `"exists"` (193-201). -/
def tryBody (local_output_dir remote_output_path : String) (env : Env) : TryResult :=
  match env.connectErr with
  | some e => ⟨[Event.connectAttempt], false, Except.error (Stage.connect, e)⟩
  | none =>
    let ev1 := [Event.connectAttempt]
    let ev2 := if env.scriptDirMissing then ev1 ++ [Event.remoteMkdir] else ev1
    match (if env.localScriptMissing
           then some (Exc.mk ExcKind.fileNotFound "local script not found")
           else env.uploadErr) with
    | some e => ⟨ev2 ++ [Event.uploadAttempt], true, Except.error (Stage.upload, e)⟩
    | none =>
      let ev3 := ev2 ++ [Event.uploadAttempt]
      match env.execErr with
      | some e => ⟨ev3 ++ [Event.execAttempt], true, Except.error (Stage.execute, e)⟩
      | none =>
        let ev4 := ev3 ++ [Event.execAttempt]
        if env.execStderr ≠ "" then
          ⟨ev4, true, Except.ok (TryExit.earlyReturn env.execStderr)⟩
        else
          match env.probeErr with
          | some e => ⟨ev4 ++ [Event.probeAttempt], true, Except.error (Stage.probe, e)⟩
          | none =>
            let ev5 := ev4 ++ [Event.probeAttempt]
            let file_exists := pyStrip env.probeStdout
            let local_file_path := joinPath local_output_dir (basename remote_output_path)
            if file_exists = "exists" then
              match env.downloadErr with
              | some e => ⟨ev5 ++ [Event.downloadAttempt], true, Except.error (Stage.download, e)⟩
              | none => ⟨ev5 ++ [Event.downloadAttempt], true,
                         Except.ok (TryExit.normal true (some local_file_path))⟩
            else
              ⟨ev5, true, Except.ok (TryExit.normal false none)⟩

/-- The whole of `remote_operate` (lines 111-209): compute the remote paths
(141-143), create the local output directory (145), run the `try` body,
catch any exception it raised at line 203 (printing it, never re-raising),
and in the `finally` block close the client iff its transport is active
(205-208). The transport is active exactly when `connect` returned and
nothing closed it earlier. -/
def remote_operate (server_ip local_script_path local_output_dir
    remote_script_dir remote_output_dir remote_output_filename : String)
    (env : Env) : RunResult :=
  let _remote_script_path := remote_script_dir ++ basename local_script_path
  let remote_output_path :=
    computeRemoteOutputPath remote_output_dir server_ip remote_output_filename
  let t := tryBody local_output_dir remote_output_path env
  let outcome : Outcome :=
    match t.exit with
    | Except.ok (TryExit.normal found _) => Outcome.completed found
    | Except.ok (TryExit.earlyReturn s) => Outcome.earlyReturnStderr s
    | Except.error (st, e) => Outcome.caught st e
  let artifact : Option String :=
    match t.exit with
    | Except.ok (TryExit.normal _ f) => f
    | _ => none
  let closeNow := t.connected
  { events := (Event.makedirsLocal :: t.events) ++ (if closeNow then [Event.sshClose] else []),
    outcome := outcome,
    escaped := none,
    localDirCreated := true,
    localFilePath := artifact,
    sshOpenAtReturn := t.connected && ! closeNow,
    closeInvoked := closeNow }

/-- Spec section 4.2's `Failed(stage, reason)` classification, written from
the spec's words for comparison with the code: the first pipeline stage
whose collaborator operation raises an exception, in stage order, together
with that exception; `none` when no stage raises (the non-empty-stderr
early return is classified separately by the spec's transition rule 3 and
raises nothing). -/
def specFirstFailure (env : Env) : Option (Stage × Exc) :=
  match env.connectErr with
  | some e => some (Stage.connect, e)
  | none =>
    match (if env.localScriptMissing
           then some (Exc.mk ExcKind.fileNotFound "local script not found")
           else env.uploadErr) with
    | some e => some (Stage.upload, e)
    | none =>
      match env.execErr with
      | some e => some (Stage.execute, e)
      | none =>
        if env.execStderr ≠ "" then none
        else
          match env.probeErr with
          | some e => some (Stage.probe, e)
          | none =>
            if pyStrip env.probeStdout = "exists" then
              match env.downloadErr with
              | some e => some (Stage.download, e)
              | none => none
            else none

/-- Every run's trace begins with the connect attempt: the events of the
`try` body always start with `Event.connectAttempt`. -/
theorem tryBody_starts_with_connect (ld ro : String) (env : Env) :
    ∃ rest, (tryBody ld ro env).events = Event.connectAttempt :: rest := by
  rcases env with ⟨ce, sdm, lsm, ue, ee, ses, pe, ps, de⟩
  cases ce <;> cases sdm <;> cases lsm <;> cases ue <;> cases ee <;> cases pe <;> cases de <;>
    by_cases hs : ses = "" <;> by_cases hp : pyStrip ps = "exists" <;>
      simp [tryBody, hs, hp]

/-- C1: per-host errors at any stage are captured, never escaping
`remote_operate` to its caller; mapping the pipeline over any host list
yields exactly one result per host; and the run's outcome records exactly
the first failing stage together with its exception, matching the spec's
`Failed(stage, reason)` classification. -/
theorem c1_errors_captured_one_result_per_host
    (server_ip local_script_path local_output_dir remote_script_dir
     remote_output_dir remote_output_filename : String) (env : Env) :
    (remote_operate server_ip local_script_path local_output_dir remote_script_dir
       remote_output_dir remote_output_filename env).escaped = none ∧
    (∀ hosts : List String,
      (hosts.map (fun ip => remote_operate ip local_script_path local_output_dir
         remote_script_dir remote_output_dir remote_output_filename env)).length
        = hosts.length) ∧
    (∀ (st : Stage) (e : Exc),
      (remote_operate server_ip local_script_path local_output_dir remote_script_dir
         remote_output_dir remote_output_filename env).outcome = Outcome.caught st e
        ↔ specFirstFailure env = some (st, e)) := by
  refine ⟨rfl, fun hosts => List.length_map _ _, ?_⟩
  intro st e
  rcases env with ⟨ce, sdm, lsm, ue, ee, ses, pe, ps, de⟩
  cases ce <;> cases lsm <;> cases ue <;> cases ee <;> cases pe <;> cases de <;>
    by_cases hs : ses = "" <;> by_cases hp : pyStrip ps = "exists" <;>
      simp [remote_operate, tryBody, specFirstFailure, hs, hp, and_comm]

/-- C9: the local output directory is created, with exist-ok semantics,
before the SSH connection is attempted — the trace always begins with
`makedirsLocal` followed by `connectAttempt` — and after the call it exists
no matter how the rest of the run went. -/
theorem c9_local_dir_created_before_connect
    (server_ip local_script_path local_output_dir remote_script_dir
     remote_output_dir remote_output_filename : String) (env : Env) :
    (remote_operate server_ip local_script_path local_output_dir remote_script_dir
       remote_output_dir remote_output_filename env).localDirCreated = true ∧
    ∃ rest : List Event,
      (remote_operate server_ip local_script_path local_output_dir remote_script_dir
         remote_output_dir remote_output_filename env).events
        = Event.makedirsLocal :: Event.connectAttempt :: rest := by
  refine ⟨rfl, ?_⟩
  obtain ⟨rest, hrest⟩ := tryBody_starts_with_connect local_output_dir
    (computeRemoteOutputPath remote_output_dir server_ip remote_output_filename) env
  refine ⟨rest ++ (if (tryBody local_output_dir
      (computeRemoteOutputPath remote_output_dir server_ip remote_output_filename) env).connected
      then [Event.sshClose] else []), ?_⟩
  show (Event.makedirsLocal :: _) ++ _ = _
  rw [hrest]
  simp

/-- C2: the computed remote output path is the bare concatenation
`remote_output_dir ++ host ++ "_" ++ filename`, and at the concrete inputs
of the claim it is exactly `"/tmp/out/10.0.0.5_result.csv"`. -/
theorem c2_remote_output_path :
    (∀ d h f : String, computeRemoteOutputPath d h f = d ++ h ++ "_" ++ f) ∧
    computeRemoteOutputPath "/tmp/out/" "10.0.0.5" "result.csv" = "/tmp/out/10.0.0.5_result.csv" := by
  constructor
  · intro d h f
    rfl
  · rfl

/-- C3: when the remote command writes non-empty stderr, the run takes the
early return of line 183 carrying that stderr, and neither the existence
probe nor the download is attempted. -/
theorem c3_nonempty_stderr_fails_execute
    (server_ip local_script_path local_output_dir remote_script_dir
     remote_output_dir remote_output_filename : String) (env : Env)
    (hc : env.connectErr = none) (hl : env.localScriptMissing = false)
    (hu : env.uploadErr = none) (he : env.execErr = none)
    (hs : env.execStderr ≠ "") :
    (remote_operate server_ip local_script_path local_output_dir remote_script_dir
       remote_output_dir remote_output_filename env).outcome
      = Outcome.earlyReturnStderr env.execStderr ∧
    Event.probeAttempt ∉ (remote_operate server_ip local_script_path local_output_dir
       remote_script_dir remote_output_dir remote_output_filename env).events ∧
    Event.downloadAttempt ∉ (remote_operate server_ip local_script_path local_output_dir
       remote_script_dir remote_output_dir remote_output_filename env).events := by
  cases hd : env.scriptDirMissing <;>
    simp [remote_operate, tryBody, hc, hl, hu, he, hs, hd]

/-- C3 witness: a concrete run whose remote command wrote "boom" to stderr. -/
theorem c3_witness :
    ((Env.mk none false false none none "boom" none "" none).connectErr = none ∧
     (Env.mk none false false none none "boom" none "" none).execStderr ≠ "") ∧
    (remote_operate "10.0.0.5" "/tmp/a.py" "/tmp/out" "/r/" "/o/" "res.csv"
       (Env.mk none false false none none "boom" none "" none)).outcome
      = Outcome.earlyReturnStderr "boom" :=
  ⟨⟨rfl, by decide⟩,
   (c3_nonempty_stderr_fails_execute "10.0.0.5" "/tmp/a.py" "/tmp/out" "/r/" "/o/" "res.csv"
      (Env.mk none false false none none "boom" none "" none)
      rfl rfl rfl rfl (by decide)).1⟩

/-- C4: a probe answering the sentinel "no" is not a failure: the run
completes with output-found false, nothing escapes, no artifact is
recorded, and no download is attempted. -/
theorem c4_probe_false_no_download
    (server_ip local_script_path local_output_dir remote_script_dir
     remote_output_dir remote_output_filename : String) (env : Env)
    (hc : env.connectErr = none) (hl : env.localScriptMissing = false)
    (hu : env.uploadErr = none) (he : env.execErr = none)
    (hs : env.execStderr = "") (hq : env.probeErr = none)
    (hp : pyStrip env.probeStdout = "no") :
    (remote_operate server_ip local_script_path local_output_dir remote_script_dir
       remote_output_dir remote_output_filename env).outcome = Outcome.completed false ∧
    (remote_operate server_ip local_script_path local_output_dir remote_script_dir
       remote_output_dir remote_output_filename env).escaped = none ∧
    (remote_operate server_ip local_script_path local_output_dir remote_script_dir
       remote_output_dir remote_output_filename env).localFilePath = none ∧
    Event.downloadAttempt ∉ (remote_operate server_ip local_script_path local_output_dir
       remote_script_dir remote_output_dir remote_output_filename env).events := by
  cases hd : env.scriptDirMissing <;>
    simp [remote_operate, tryBody, hc, hl, hu, he, hs, hq, hp, hd]

/-- C4 witness: a concrete run whose probe answered "no". -/
theorem c4_witness :
    (pyStrip (Env.mk none false false none none "" none "no" none).probeStdout = "no" ∧
     (Env.mk none false false none none "" none "no" none).execStderr = "") ∧
    (remote_operate "10.0.0.5" "/tmp/a.py" "/tmp/out" "/r/" "/o/" "res.csv"
       (Env.mk none false false none none "" none "no" none)).outcome
      = Outcome.completed false :=
  ⟨⟨by decide, rfl⟩,
   (c4_probe_false_no_download "10.0.0.5" "/tmp/a.py" "/tmp/out" "/r/" "/o/" "res.csv"
      (Env.mk none false false none none "" none "no" none)
      rfl rfl rfl rfl rfl rfl (by decide)).1⟩

/-- C5 counterexample: when `ssh.connect` itself fails (the transport never
became active), the finally-block guard of lines 207-208 is false and
`ssh.close()` is not invoked, yet the function still returns normally — so
close is not invoked on every exit path, contrary to the claim. -/
theorem c5_counterexample_close_not_invoked :
    (remote_operate "10.0.0.5" "/tmp/a.py" "/tmp/out" "/r/" "/o/" "res.csv"
       (Env.mk (some (Exc.mk ExcKind.connError "timed out")) false false none none "" none "" none)).closeInvoked
      = false ∧
    (remote_operate "10.0.0.5" "/tmp/a.py" "/tmp/out" "/r/" "/o/" "res.csv"
       (Env.mk (some (Exc.mk ExcKind.connError "timed out")) false false none none "" none "" none)).escaped
      = none := ⟨rfl, rfl⟩

/-- C5 amended: on every exit path on which the transport became active
(the connect call returned), `ssh.close()` is invoked before the function
returns; on every exit path whatsoever the function returns with the
session not left open; and closing is idempotent on the transport state. -/
theorem c5_amended_close_when_transport_active
    (server_ip local_script_path local_output_dir remote_script_dir
     remote_output_dir remote_output_filename : String) (env : Env)
    (h : env.connectErr = none) :
    (remote_operate server_ip local_script_path local_output_dir remote_script_dir
       remote_output_dir remote_output_filename env).closeInvoked = true ∧
    (∀ env2 : Env, (remote_operate server_ip local_script_path local_output_dir
       remote_script_dir remote_output_dir remote_output_filename env2).sshOpenAtReturn = false) ∧
    (∀ b : Bool, sshClose (sshClose b) = sshClose b) := by
  refine ⟨?_, ?_, fun b => rfl⟩
  · cases hl : env.localScriptMissing <;> cases hu : env.uploadErr <;>
      cases he : env.execErr <;> cases hq : env.probeErr <;> cases hde : env.downloadErr <;>
        by_cases hs : env.execStderr = "" <;> by_cases hp : pyStrip env.probeStdout = "exists" <;>
          simp [remote_operate, tryBody, h, hl, hu, he, hq, hde, hs, hp]
  · intro env2
    simp [remote_operate]

/-- C5 witness: a concrete run whose connect succeeded, so close is invoked. -/
theorem c5_witness :
    (Env.mk none false false none none "" none "" none).connectErr = none ∧
    (remote_operate "10.0.0.5" "/tmp/a.py" "/tmp/out" "/r/" "/o/" "res.csv"
       (Env.mk none false false none none "" none "" none)).closeInvoked = true :=
  ⟨rfl,
   (c5_amended_close_when_transport_active "10.0.0.5" "/tmp/a.py" "/tmp/out" "/r/" "/o/" "res.csv"
      (Env.mk none false false none none "" none "" none) rfl).1⟩

/-- C6: a remote command exceeding its timeout surfaces as a caught
exception of kind timeout, recorded at the execute stage — distinguishable
from other execution failures — with no further stage attempted, and the
session is still closed before the function returns. -/
theorem c6_timeout_distinguishable_and_closed
    (server_ip local_script_path local_output_dir remote_script_dir
     remote_output_dir remote_output_filename m : String) (env : Env)
    (hc : env.connectErr = none) (hl : env.localScriptMissing = false)
    (hu : env.uploadErr = none)
    (he : env.execErr = some (Exc.mk ExcKind.timeout m)) :
    (remote_operate server_ip local_script_path local_output_dir remote_script_dir
       remote_output_dir remote_output_filename env).outcome
      = Outcome.caught Stage.execute (Exc.mk ExcKind.timeout m) ∧
    (remote_operate server_ip local_script_path local_output_dir remote_script_dir
       remote_output_dir remote_output_filename env).closeInvoked = true ∧
    (remote_operate server_ip local_script_path local_output_dir remote_script_dir
       remote_output_dir remote_output_filename env).sshOpenAtReturn = false ∧
    Event.probeAttempt ∉ (remote_operate server_ip local_script_path local_output_dir
       remote_script_dir remote_output_dir remote_output_filename env).events ∧
    Event.downloadAttempt ∉ (remote_operate server_ip local_script_path local_output_dir
       remote_script_dir remote_output_dir remote_output_filename env).events := by
  cases hd : env.scriptDirMissing <;>
    simp [remote_operate, tryBody, hc, hl, hu, he, hd]

/-- C6 witness: a concrete run whose remote command timed out. -/
theorem c6_witness :
    ((Env.mk none false false none (some (Exc.mk ExcKind.timeout "timed out")) "" none "" none).connectErr = none ∧
     (Env.mk none false false none (some (Exc.mk ExcKind.timeout "timed out")) "" none "" none).execErr
       = some (Exc.mk ExcKind.timeout "timed out")) ∧
    (remote_operate "10.0.0.5" "/tmp/a.py" "/tmp/out" "/r/" "/o/" "res.csv"
       (Env.mk none false false none (some (Exc.mk ExcKind.timeout "timed out")) "" none "" none)).outcome
      = Outcome.caught Stage.execute (Exc.mk ExcKind.timeout "timed out") :=
  ⟨⟨rfl, rfl⟩,
   (c6_timeout_distinguishable_and_closed "10.0.0.5" "/tmp/a.py" "/tmp/out" "/r/" "/o/" "res.csv"
      "timed out" (Env.mk none false false none (some (Exc.mk ExcKind.timeout "timed out")) "" none "" none)
      rfl rfl rfl rfl).1⟩

/-- C7 counterexample: with a local script that does not exist — an input
the claim says is rejected before any host is contacted — the pipeline
still attempts the connection; the bad path is detected only by the upload
call at the upload stage and is captured rather than aborting the run. -/
theorem c7_counterexample_no_validation_before_connect :
    Event.connectAttempt ∈ (remote_operate "10.0.0.5" "/no/such/script.py" "/tmp/out" "/r/" "/o/" "res.csv"
       (Env.mk none false true none none "" none "" none)).events ∧
    (remote_operate "10.0.0.5" "/no/such/script.py" "/tmp/out" "/r/" "/o/" "res.csv"
       (Env.mk none false true none none "" none "" none)).outcome
      = Outcome.caught Stage.upload (Exc.mk ExcKind.fileNotFound "local script not found") ∧
    (remote_operate "10.0.0.5" "/no/such/script.py" "/tmp/out" "/r/" "/o/" "res.csv"
       (Env.mk none false true none none "" none "" none)).escaped = none := by
  refine ⟨by decide, by decide, rfl⟩

/-- C7 amended: no input validation is performed before connecting:
whenever the local script is missing and the host is reachable, the
connection is attempted first, and the missing script is detected only at
the upload stage, captured into the per-host result instead of aborting
the run. -/
theorem c7_amended_no_upfront_validation
    (server_ip local_script_path local_output_dir remote_script_dir
     remote_output_dir remote_output_filename : String) (env : Env)
    (hc : env.connectErr = none) (hl : env.localScriptMissing = true) :
    Event.connectAttempt ∈ (remote_operate server_ip local_script_path local_output_dir
       remote_script_dir remote_output_dir remote_output_filename env).events ∧
    (remote_operate server_ip local_script_path local_output_dir remote_script_dir
       remote_output_dir remote_output_filename env).outcome
      = Outcome.caught Stage.upload (Exc.mk ExcKind.fileNotFound "local script not found") ∧
    (remote_operate server_ip local_script_path local_output_dir remote_script_dir
       remote_output_dir remote_output_filename env).escaped = none := by
  cases hd : env.scriptDirMissing <;>
    simp [remote_operate, tryBody, hc, hl, hd]

/-- C7 witness: a concrete run with the local script missing. -/
theorem c7_witness :
    ((Env.mk none false true none none "" none "" none).connectErr = none ∧
     (Env.mk none false true none none "" none "" none).localScriptMissing = true) ∧
    (remote_operate "10.0.0.6" "/no/such/b.py" "/tmp/out" "/r/" "/o/" "res.csv"
       (Env.mk none false true none none "" none "" none)).outcome
      = Outcome.caught Stage.upload (Exc.mk ExcKind.fileNotFound "local script not found") :=
  ⟨⟨rfl, rfl⟩,
   (c7_amended_no_upfront_validation "10.0.0.6" "/no/such/b.py" "/tmp/out" "/r/" "/o/" "res.csv"
      (Env.mk none false true none none "" none "" none) rfl rfl).2.1⟩

/-- C10: once the run reaches the probe, the download is attempted exactly
when the stripped probe stdout equals "exists"; any other probe output
skips the download and the run completes, output-found false, with nothing
escaping. -/
theorem c10_download_iff_probe_exists
    (server_ip local_script_path local_output_dir remote_script_dir
     remote_output_dir remote_output_filename : String) (env : Env)
    (hc : env.connectErr = none) (hl : env.localScriptMissing = false)
    (hu : env.uploadErr = none) (he : env.execErr = none)
    (hs : env.execStderr = "") (hq : env.probeErr = none) :
    (Event.downloadAttempt ∈ (remote_operate server_ip local_script_path local_output_dir
        remote_script_dir remote_output_dir remote_output_filename env).events
      ↔ pyStrip env.probeStdout = "exists") ∧
    (pyStrip env.probeStdout ≠ "exists" →
      (remote_operate server_ip local_script_path local_output_dir remote_script_dir
         remote_output_dir remote_output_filename env).escaped = none ∧
      (remote_operate server_ip local_script_path local_output_dir remote_script_dir
         remote_output_dir remote_output_filename env).outcome = Outcome.completed false) := by
  by_cases hp : pyStrip env.probeStdout = "exists" <;>
    cases hd : env.scriptDirMissing <;> cases hde : env.downloadErr <;>
      simp [remote_operate, tryBody, hc, hl, hu, he, hs, hq, hp, hd, hde]

/-- C10 witness: a concrete run whose probe printed "no", so the download is
skipped and the run completes with output-found false. -/
theorem c10_witness :
    ((Env.mk none false false none none "" none "no" none).connectErr = none ∧
     pyStrip (Env.mk none false false none none "" none "no" none).probeStdout ≠ "exists") ∧
    (remote_operate "10.0.0.7" "/tmp/a.py" "/tmp/out" "/r/" "/o/" "res.csv"
       (Env.mk none false false none none "" none "no" none)).outcome
      = Outcome.completed false :=
  ⟨⟨rfl, by decide⟩,
   ((c10_download_iff_probe_exists "10.0.0.7" "/tmp/a.py" "/tmp/out" "/r/" "/o/" "res.csv"
      (Env.mk none false false none none "" none "no" none)
      rfl rfl rfl rfl rfl rfl).2 (by decide)).2⟩

/-- C8: the ensure-remote-directory step is idempotent: invoked on an
existing directory it does not fail, after any invocation the directory
exists, and re-running it from the resulting state yields the same
post-condition as the first invocation. -/
theorem c8_ensure_remote_dir_idempotent :
    (ensureRemoteDir true).2 = false ∧
    ∀ s : Bool, (ensureRemoteDir s).1 = true ∧
      ensureRemoteDir (ensureRemoteDir s).1 = ensureRemoteDir s ∧
      (ensureRemoteDir (ensureRemoteDir s).1).2 = false := by
  refine ⟨rfl, ?_⟩
  intro s
  cases s <;> exact ⟨rfl, rfl, rfl⟩
